import Mathlib

/-!
Verification of the token-generation logic of `generate-github-app-token`
(`generator.go`).  The program signs a JWT asserting a GitHub App's identity
and optionally exchanges it for a repository installation token.

Modelling conventions:
* External collaborators (file system, JWK/PEM parsing, the two remote API
  calls, the wall clock, low-level signing) are supplied as oracles in an
  `Oracles` record; the control flow of `generator.go` is translated
  faithfully over them.
* `time.Time` and `time.Duration` are modelled as `Int` nanosecond counts,
  matching Go's `int64` nanosecond representation (no claim concerns
  overflow, and `time.Time.Add` simply adds the duration).
* RSA-SHA256 signing is modelled abstractly: a signed token records its
  claims, its algorithm and the public counterpart of the signing key;
  verification succeeds exactly for algorithm RS256 with the matching
  public key.  The cryptographic primitive itself lives in the `jwx`
  library, outside this repository.
* Each error constructor mirrors one `errors.New` / `fmt.Errorf` site in
  `generator.go`; `message` renders the same strings Go would, including the
  wrapping context labels.
-/

deriving instance DecidableEq for Except

namespace GenerateToken

/-- Signing algorithms used by the program; only `jwa.RS256` appears. -/
inductive SignAlg
  | RS256
deriving DecidableEq, Repr

/-- Claims of the app JWT as assembled by `jwt.NewBuilder()` in
`generateAppToken`: issuer, issued-at, expiration.  The builder sets no
subject and no audience, so those fields keep their empty defaults. -/
structure AppTokenClaims where
  issuer : String
  issuedAt : Int
  expiration : Int
  subject : Option String := none
  audience : List String := []
deriving DecidableEq, Repr

/-- Abstract RSA private key (`rsa.PrivateKey` obtained from
`jwk.Key.Raw`); the modulus identifies the key pair. -/
structure RSAPrivateKey where
  modulus : Nat
  privateExponent : Nat
deriving DecidableEq, Repr

/-- Abstract RSA public key. -/
structure RSAPublicKey where
  modulus : Nat
deriving DecidableEq, Repr

/-- Public counterpart of a private key. -/
def RSAPrivateKey.publicKey (k : RSAPrivateKey) : RSAPublicKey :=
  { modulus := k.modulus }

/-- Abstract model of the signed JWT produced by `jwt.Sign`: the claims,
the algorithm, and the public part of the key that signed it. -/
structure SignedToken where
  claims : AppTokenClaims
  alg : SignAlg
  signedBy : RSAPublicKey
deriving DecidableEq, Repr

/-- Model of `jwt.Sign(token, jwt.WithKey(jwa.RS256, key))` on success:
the token is bound to algorithm RS256 and to the signing key. -/
def jwtSign (t : AppTokenClaims) (key : RSAPrivateKey) : SignedToken :=
  { claims := t, alg := SignAlg.RS256, signedBy := key.publicKey }

/-- Abstract model of JWS signature verification: a token verifies against
a public key exactly when it was signed with RS256 by the corresponding
private key. -/
def jwsVerify (t : SignedToken) (pub : RSAPublicKey) : Bool :=
  t.alg == SignAlg.RS256 && t.signedBy == pub

/-- Model of the compact serialization `string(appToken)`; an injective
stand-in for the base64 JWS encoding. -/
def SignedToken.compact (t : SignedToken) : String :=
  t.claims.issuer ++ "." ++ toString t.claims.issuedAt ++ "." ++
    toString t.claims.expiration

/-- Model of `strconv.FormatInt(i, 10)`: decimal rendering of a signed
64-bit integer (Lean's `Int` rendering is the same decimal form). -/
def formatInt10 (i : Int) : String :=
  toString i

/-- Go's `time.Minute` in nanoseconds, the default of the liveness flag. -/
def timeMinute : Int := 60000000000

/-- Errors arising inside `generateAppToken`, one constructor per
`fmt.Errorf` site (the `jwt.Sign` error is returned unwrapped). -/
inductive AppTokenError
  | readFileErr (path : String) (cause : String)
  | parseKeyErr (cause : String)
  | rawKeyErr (cause : String)
  | buildErr (cause : String)
  | signErr (cause : String)
deriving DecidableEq, Repr

/-- Errors arising inside `generateInstallationToken`. -/
inductive InstallationTokenError
  | malformedRepositoryName (name : String)
  | findRepositoryInstallationErr (cause : String)
  | createInstallationTokenErr (cause : String)
deriving DecidableEq, Repr

/-- Every error `run` can return, mirroring the `return` sites of
`generator.go` including the wrapping labels added in `run`. -/
inductive RunError
  | flagParseErr (cause : String)
  | privateKeyRequired
  | appIDRequired
  | generateAuthTokenErr (inner : AppTokenError)
  | generateInstallationTokenErr (inner : InstallationTokenError)
deriving DecidableEq, Repr

/-- The `Error()` string of an `AppTokenError`, as Go formats it. -/
def AppTokenError.message : AppTokenError → String
  | .readFileErr path cause => "ioutil.ReadFile(" ++ path ++ "): " ++ cause
  | .parseKeyErr cause => "jwk.ParseKey(): " ++ cause
  | .rawKeyErr cause => "jwk.Key.Raw(): " ++ cause
  | .buildErr cause => "jwt.Builder.Build(): " ++ cause
  | .signErr cause => cause

/-- The `Error()` string of an `InstallationTokenError`, as Go formats it. -/
def InstallationTokenError.message : InstallationTokenError → String
  | .malformedRepositoryName name => "malformed repository name: " ++ name
  | .findRepositoryInstallationErr cause =>
      "Apps.FindRepositoryInstallation(): " ++ cause
  | .createInstallationTokenErr cause =>
      "Apps.CreateInstallationToken(): " ++ cause

/-- The `Error()` string of a `RunError`, as Go formats it. -/
def RunError.message : RunError → String
  | .flagParseErr cause => cause
  | .privateKeyRequired => "-private-key is required"
  | .appIDRequired => "-id is required"
  | .generateAuthTokenErr inner => "generateAuthToken(): " ++ inner.message
  | .generateInstallationTokenErr inner =>
      "generateInstallationToken(): " ++ inner.message

/-- Model of the dynamic capability check
`err.(interface\x7b ExitCode() int \x7d)` in `Run`.  None of the error
values this program produces (from `errors.New`, `fmt.Errorf` wrapping, or
the `flag` package) has an `ExitCode() int` method, so the type assertion
fails for every `RunError` and the capability is absent. -/
def RunError.exitCodeCapability : RunError → Option Int :=
  fun _ => none

/-- Observable side effects of a run: the private key file read and the two
remote API calls. -/
inductive Effect
  | fileRead (path : String)
  | findRepositoryInstallation (owner : String) (repo : String)
  | createInstallationToken (installationID : Int)
deriving DecidableEq, Repr

/-- The external collaborators of one invocation: file system, JWK
parsing, wall clock, low-level signing, and the two remote endpoints.
`signResult = none` means `jwt.Sign` succeeds. -/
structure Oracles where
  readFile : String → Except String String
  parseKey : String → Except String String
  rawKey : String → Except String RSAPrivateKey
  now : Int
  signResult : Option String
  findRepositoryInstallation : String → String → Except String Int
  createInstallationToken : Int → Except String String

/-- The four generator fields populated by `fset.Parse` from the flags
`-id`, `-private-key`, `-liveness`, `-repo` (defaults as registered). -/
structure Flags where
  appID : Int := 0
  privateKeyPath : String := ""
  tokenLiveness : Int := timeMinute
  installedRepository : String := ""
deriving DecidableEq, Repr

/-- Outcome of `fset.Parse(argv[1:])`: parsed flags, `flag.ErrHelp`, or a
parse error (flag parsing is an external collaborator). -/
inductive ParseResult
  | ok (flags : Flags)
  | help
  | error (msg : String)
deriving DecidableEq, Repr

/-- `shouldGenerateInstallationToken`: true when the `-repo` flag is
nonempty. -/
def shouldGenerateInstallationToken (installedRepository : String) : Bool :=
  installedRepository ≠ ""

/-- Split a character list around the first occurrence of `sep`:
`some (before, after)` when `sep` occurs, `none` otherwise. -/
def cutChars (sep : Char) : List Char → Option (List Char × List Char)
  | [] => none
  | c :: cs =>
    if c = sep then some ([], cs)
    else
      match cutChars sep cs with
      | none => none
      | some x => some (c :: x.1, x.2)

/-- Model of Go's `strings.Cut s "/"` as called in
`generateInstallationToken`: `(before, after, true)` split around the
first slash, or `(s, "", false)` when `s` contains none. -/
def stringsCut (s : String) : String × String × Bool :=
  match cutChars (Char.ofNat 47) s.data with
  | none => (s, "", false)
  | some x => (String.mk x.1, String.mk x.2, true)

/-- The claims assembled by
`jwt.NewBuilder().Issuer(...).IssuedAt(now).Expiration(now.Add(liveness)).Build()`.
For these three well-typed standard claims the builder cannot fail (its
error branch is dead for this input shape), so the model is total. -/
def buildAppTokenClaims (appID : Int) (now : Int) (liveness : Int) :
    AppTokenClaims :=
  { issuer := formatInt10 appID, issuedAt := now, expiration := now + liveness }

/-- `Generator.generateAppToken`: read the key file, parse it as a PEM JWK,
extract the raw RSA key, build the claims at the current time, sign with
RS256.  Returns the result together with the effect trace. -/
def generateAppToken (o : Oracles) (privateKeyPath : String) (appID : Int)
    (tokenLiveness : Int) : Except AppTokenError SignedToken × List Effect :=
  match o.readFile privateKeyPath with
  | .error e => (.error (.readFileErr privateKeyPath e), [.fileRead privateKeyPath])
  | .ok rawKeyBytes =>
    match o.parseKey rawKeyBytes with
    | .error e => (.error (.parseKeyErr e), [.fileRead privateKeyPath])
    | .ok combinedKey =>
      match o.rawKey combinedKey with
      | .error e => (.error (.rawKeyErr e), [.fileRead privateKeyPath])
      | .ok key =>
        let token := buildAppTokenClaims appID o.now tokenLiveness
        match o.signResult with
        | some e => (.error (.signErr e), [.fileRead privateKeyPath])
        | none => (.ok (jwtSign token key), [.fileRead privateKeyPath])

/-- `Generator.generateInstallationToken`: split the repository name at the
first slash (failing without any network call when there is none), then
look up the installation and create an installation token, each remote
call attempted at most once and recorded in the effect trace. -/
def generateInstallationToken (o : Oracles) (installedRepository : String)
    (appToken : String) : Except InstallationTokenError String × List Effect :=
  let cut := stringsCut installedRepository
  let owner := cut.1
  let repo := cut.2.1
  let found := cut.2.2
  if found = false then
    (.error (.malformedRepositoryName installedRepository), [])
  else
    match o.findRepositoryInstallation owner repo with
    | .error e =>
        (.error (.findRepositoryInstallationErr e),
         [.findRepositoryInstallation owner repo])
    | .ok installationID =>
      match o.createInstallationToken installationID with
      | .error e =>
          (.error (.createInstallationTokenErr e),
           [.findRepositoryInstallation owner repo,
            .createInstallationToken installationID])
      | .ok tok =>
          (.ok tok,
           [.findRepositoryInstallation owner repo,
            .createInstallationToken installationID])

/-- Result of `run`: the returned error (if any), the payloads written to
the output stream by `fmt.Fprintln(g.outStream, ...)` (one list element per
`Fprintln`, without the terminator), and the effect trace. -/
structure RunTrace where
  result : Except RunError Unit
  outWrites : List String
  effects : List Effect
deriving DecidableEq, Repr

/-- `Generator.run` given the flag-parse outcome: on `flag.ErrHelp` return
nil; validate `-private-key` then `-id`; sign the app token; then either
exchange it for an installation token (when `-repo` is set) and print
that, or print the app token itself. -/
def run (o : Oracles) (p : ParseResult) : RunTrace :=
  match p with
  | .error msg => { result := .error (.flagParseErr msg), outWrites := [], effects := [] }
  | .help => { result := .ok (), outWrites := [], effects := [] }
  | .ok flags =>
    if flags.privateKeyPath = "" then
      { result := .error .privateKeyRequired, outWrites := [], effects := [] }
    else if flags.appID = 0 then
      { result := .error .appIDRequired, outWrites := [], effects := [] }
    else
      match generateAppToken o flags.privateKeyPath flags.appID flags.tokenLiveness with
      | (.error e, effs) =>
          { result := .error (.generateAuthTokenErr e), outWrites := [], effects := effs }
      | (.ok appToken, effs) =>
        if shouldGenerateInstallationToken flags.installedRepository then
          match generateInstallationToken o flags.installedRepository appToken.compact with
          | (.error e, effs2) =>
              { result := .error (.generateInstallationTokenErr e)
              , outWrites := [], effects := effs ++ effs2 }
          | (.ok installationToken, effs2) =>
              { result := .ok (), outWrites := [installationToken]
              , effects := effs ++ effs2 }
        else
          { result := .ok (), outWrites := [appToken.compact], effects := effs }

/-- What the process exhibits: exit code, output-stream writes,
error-stream writes by `Run` (again one element per `Fprintln`). -/
structure ProcessOutcome where
  exitCode : Int
  outWrites : List String
  errWrites : List String
deriving DecidableEq, Repr

/-- `Generator.Run`: call `run`; on error print the error message to the
error stream and, only when the error value offers an `ExitCode`
capability, adopt that exit code — otherwise the initial value 0 stands. -/
def Run (o : Oracles) (p : ParseResult) : ProcessOutcome :=
  match (run o p).result with
  | .ok _ =>
      { exitCode := 0, outWrites := (run o p).outWrites, errWrites := [] }
  | .error e =>
      { exitCode :=
          match e.exitCodeCapability with
          | some c => c
          | none => 0
      , outWrites := (run o p).outWrites
      , errWrites := [e.message] }

/-!
Small-step view of the same invocation, matching the orchestration phases:
input parsing populates the four generator fields once, and every later
phase only reads them.  This is the state-transition embedding used for
the frame property; `machineRefinesRun` ties it back to `run`.
-/

/-- Phases of one invocation. -/
inductive Phase
  | parsingInput
  | validating
  | signingAppToken
  | exchangingInstallationToken (appToken : SignedToken)
  | emitting (output : String)
  | terminalOk
  | terminalErr (e : RunError)
deriving DecidableEq, Repr

/-- The generator's mutable state: current phase, the four fields set from
the flags, and the observable writes and effects so far. -/
structure MachineState where
  phase : Phase
  appID : Int
  privateKeyPath : String
  tokenLiveness : Int
  installedRepository : String
  outWrites : List String
  effects : List Effect
deriving DecidableEq, Repr

/-- The state before `fset.Parse` runs: flag registration has stored each
flag's default into the generator's fields. -/
def MachineState.init : MachineState :=
  { phase := .parsingInput, appID := 0, privateKeyPath := ""
  , tokenLiveness := timeMinute, installedRepository := ""
  , outWrites := [], effects := [] }

/-- One step of the invocation.  The `parsingInput` step is the only one
that writes the four generator fields; every other step leaves them
untouched. -/
def step (o : Oracles) (p : ParseResult) (s : MachineState) : MachineState :=
  match s.phase with
  | .parsingInput =>
    match p with
    | .error msg => { s with phase := .terminalErr (.flagParseErr msg) }
    | .help => { s with phase := .terminalOk }
    | .ok flags =>
        { s with phase := .validating,
                 appID := flags.appID,
                 privateKeyPath := flags.privateKeyPath,
                 tokenLiveness := flags.tokenLiveness,
                 installedRepository := flags.installedRepository }
  | .validating =>
    if s.privateKeyPath = "" then
      { s with phase := .terminalErr .privateKeyRequired }
    else if s.appID = 0 then
      { s with phase := .terminalErr .appIDRequired }
    else
      { s with phase := .signingAppToken }
  | .signingAppToken =>
    match generateAppToken o s.privateKeyPath s.appID s.tokenLiveness with
    | (.error e, effs) =>
        { s with phase := .terminalErr (.generateAuthTokenErr e),
                 effects := s.effects ++ effs }
    | (.ok appToken, effs) =>
      if shouldGenerateInstallationToken s.installedRepository then
        { s with phase := .exchangingInstallationToken appToken,
                 effects := s.effects ++ effs }
      else
        { s with phase := .emitting appToken.compact,
                 effects := s.effects ++ effs }
  | .exchangingInstallationToken appToken =>
    match generateInstallationToken o s.installedRepository appToken.compact with
    | (.error e, effs) =>
        { s with phase := .terminalErr (.generateInstallationTokenErr e),
                 effects := s.effects ++ effs }
    | (.ok installationToken, effs) =>
        { s with phase := .emitting installationToken,
                 effects := s.effects ++ effs }
  | .emitting output =>
      { s with phase := .terminalOk, outWrites := s.outWrites ++ [output] }
  | .terminalOk => s
  | .terminalErr _ => s

/-- The result a terminal phase denotes, if terminal. -/
def Phase.result : Phase → Option (Except RunError Unit)
  | .terminalOk => some (.ok ())
  | .terminalErr e => some (.error e)
  | _ => none

/-- Five steps from the initial state reach a terminal phase on every
path. -/
def machineFinal (o : Oracles) (p : ParseResult) : MachineState :=
  step o p (step o p (step o p (step o p (step o p MachineState.init))))

/-!  Concrete fixtures used by witnesses and counterexamples. -/

/-- A fixed RSA key pair for concrete runs. -/
def sampleKey : RSAPrivateKey := { modulus := 3233, privateExponent := 2753 }

/-- Oracles for runs in which every external collaborator fails: the key
file is unreadable and both remote endpoints error. -/
def failingOracles : Oracles :=
  { readFile := fun _ => .error "open key.pem: no such file or directory"
  , parseKey := fun _ => .error "failed to parse PEM encoded key"
  , rawKey := fun _ => .error "argument to AssignIfCompatible should be compatible"
  , now := 1700000000000000000
  , signResult := none
  , findRepositoryInstallation := fun _ _ => .error "404 Not Found"
  , createInstallationToken := fun _ => .error "503 Service Unavailable" }

/-- Oracles for runs in which every external collaborator succeeds: the
key file parses to `sampleKey`, the lookup resolves installation 999 and
token creation yields a fixed token string. -/
def okOracles : Oracles :=
  { readFile := fun _ => .ok "PEM-BYTES"
  , parseKey := fun _ => .ok "JWK-KEY"
  , rawKey := fun _ => .ok sampleKey
  , now := 1700000000000000000
  , signResult := none
  , findRepositoryInstallation := fun _ _ => .ok 999
  , createInstallationToken := fun _ => .ok "ghs_abc" }

/-- Flags of a fully specified app-token-mode run. -/
def flagsAppOnly : Flags :=
  { appID := 123, privateKeyPath := "key.pem"
  , tokenLiveness := timeMinute, installedRepository := "" }

/-- Flags of a fully specified installation-token-mode run. -/
def flagsWithRepo : Flags :=
  { appID := 123, privateKeyPath := "key.pem"
  , tokenLiveness := timeMinute, installedRepository := "acme/widgets" }

/-- Flags whose repository identifier lacks a slash. -/
def flagsRepoNoSlash : Flags :=
  { appID := 123, privateKeyPath := "key.pem"
  , tokenLiveness := timeMinute, installedRepository := "acmewidgets" }

/-- A machine state just past input parsing, its fields populated from
`flagsWithRepo`. -/
def sampleValidatingState : MachineState :=
  { phase := .validating, appID := 123, privateKeyPath := "key.pem"
  , tokenLiveness := timeMinute, installedRepository := "acme/widgets"
  , outWrites := [], effects := [] }

/-!  Theorems about the claims. -/

/-- C1: the spec claims every failing invocation terminates with a
non-zero exit code.  The code does write the error message to the error
stream, but `Run` starts from exit code 0 and changes it only when the
error value offers an `ExitCode` capability — which no error produced by
this program does — so the exit code is 0 for every invocation, failing
ones included.  The first conjunct proves exit code 0 universally; the
remaining conjuncts exhibit a failing run (missing `-private-key`) that
still exits 0 after reporting its error. -/
theorem exit_code_zero_even_on_failure :
    (∀ (o : Oracles) (p : ParseResult), (Run o p).exitCode = 0) ∧
    (run failingOracles (ParseResult.ok {})).result =
      Except.error RunError.privateKeyRequired ∧
    (Run failingOracles (ParseResult.ok {})).errWrites =
      ["-private-key is required"] ∧
    (Run failingOracles (ParseResult.ok {})).exitCode = 0 := by
  refine ⟨?_, rfl, rfl, rfl⟩
  intro o p
  cases hr : (run o p).result with
  | ok u => simp [Run, hr]
  | error e => simp [Run, hr, RunError.exitCodeCapability]

/-- C2: for every valid input (positive app id, key material the external
parsers accept, positive liveness, signing succeeding), the signed app
token's issuer claim is the decimal string of the app id, its expiration
minus its issued-at equals exactly the liveness, no subject and no
audience claim is set, its algorithm is RS256, and it verifies against
the public counterpart of the signing key. -/
theorem app_token_claims_and_signature (o : Oracles) (path : String)
    (appID liveness : Int) (keyBytes jwkKey : String) (key : RSAPrivateKey)
    (hid : 0 < appID) (hliv : 0 < liveness)
    (hread : o.readFile path = Except.ok keyBytes)
    (hparse : o.parseKey keyBytes = Except.ok jwkKey)
    (hraw : o.rawKey jwkKey = Except.ok key)
    (hsign : o.signResult = none) :
    ∃ tok effs,
      generateAppToken o path appID liveness = (Except.ok tok, effs) ∧
      tok.claims.issuer = formatInt10 appID ∧
      tok.claims.expiration - tok.claims.issuedAt = liveness ∧
      tok.claims.subject = none ∧
      tok.claims.audience = [] ∧
      tok.alg = SignAlg.RS256 ∧
      jwsVerify tok key.publicKey = true := by
  refine ⟨jwtSign (buildAppTokenClaims appID o.now liveness) key,
    [Effect.fileRead path], ?_, rfl, ?_, rfl, rfl, rfl, ?_⟩
  · simp [generateAppToken, hread, hparse, hraw, hsign]
  · show o.now + liveness - o.now = liveness
    omega
  · simp [jwsVerify, jwtSign]

/-- C2 witness: a concrete valid run through `app_token_claims_and_signature`
with app id 123, the sample key and the default one-minute liveness. -/
theorem app_token_claims_and_signature_witness :
    ∃ tok effs,
      generateAppToken okOracles "key.pem" 123 timeMinute =
        (Except.ok tok, effs) ∧
      tok.claims.issuer = formatInt10 123 ∧
      tok.claims.expiration - tok.claims.issuedAt = timeMinute ∧
      tok.claims.subject = none ∧
      tok.claims.audience = [] ∧
      tok.alg = SignAlg.RS256 ∧
      jwsVerify tok sampleKey.publicKey = true :=
  app_token_claims_and_signature okOracles "key.pem" 123 timeMinute
    "PEM-BYTES" "JWK-KEY" sampleKey (by decide) (by decide) rfl rfl rfl rfl

/-- C8: a zero or negative liveness is not rejected: provided the key
machinery succeeds, signing still produces a token, and its expiration is
issued-at plus the liveness, hence not after its issued-at. -/
theorem nonpositive_liveness_token (o : Oracles) (path keyBytes jwkKey : String)
    (appID liveness : Int) (key : RSAPrivateKey)
    (hliv : liveness ≤ 0)
    (hread : o.readFile path = Except.ok keyBytes)
    (hparse : o.parseKey keyBytes = Except.ok jwkKey)
    (hraw : o.rawKey jwkKey = Except.ok key)
    (hsign : o.signResult = none) :
    ∃ tok effs,
      generateAppToken o path appID liveness = (Except.ok tok, effs) ∧
      tok.claims.expiration = tok.claims.issuedAt + liveness ∧
      tok.claims.expiration ≤ tok.claims.issuedAt := by
  refine ⟨jwtSign (buildAppTokenClaims appID o.now liveness) key,
    [Effect.fileRead path], ?_, rfl, ?_⟩
  · simp [generateAppToken, hread, hparse, hraw, hsign]
  · show o.now + liveness ≤ o.now
    omega

/-- C8 witness: a concrete run through `nonpositive_liveness_token` with
liveness 0. -/
theorem nonpositive_liveness_token_witness :
    ∃ tok effs,
      generateAppToken okOracles "key.pem" 123 0 = (Except.ok tok, effs) ∧
      tok.claims.expiration = tok.claims.issuedAt + 0 ∧
      tok.claims.expiration ≤ tok.claims.issuedAt :=
  nonpositive_liveness_token okOracles "key.pem" "PEM-BYTES" "JWK-KEY" 123 0
    sampleKey (by decide) rfl rfl rfl rfl

/-- C3 counterexample: the claim says every repository string that is not
exactly two non-empty parts around a single slash fails before any network
call.  The string "/x" has an empty owner part, yet the exchange does not
return the malformed-repository-name error and does perform the lookup
network call: the code only checks that some slash exists. -/
theorem repo_format_check_counterexample :
    (generateInstallationToken failingOracles "/x" "tok").1 ≠
      Except.error (InstallationTokenError.malformedRepositoryName "/x") ∧
    (generateInstallationToken failingOracles "/x" "tok").2 =
      [Effect.findRepositoryInstallation "" "x"] := by
  refine ⟨?_, rfl⟩
  decide

/-- C3 amended: the exchange fails with the malformed-repository-name
error, before any network call, exactly when the repository identifier
contains no slash; any identifier containing a slash (even with an empty
owner or name part, or further slashes) proceeds to the lookup call on the
parts before and after the first slash. -/
theorem repo_format_check_fails_iff_no_slash (o : Oracles) (s appToken : String) :
    ((stringsCut s).2.2 = false →
      generateInstallationToken o s appToken =
        (Except.error (InstallationTokenError.malformedRepositoryName s), [])) ∧
    ((stringsCut s).2.2 = true →
      (generateInstallationToken o s appToken).1 ≠
        Except.error (InstallationTokenError.malformedRepositoryName s) ∧
      Effect.findRepositoryInstallation (stringsCut s).1 (stringsCut s).2.1 ∈
        (generateInstallationToken o s appToken).2) := by
  constructor
  · intro h
    simp [generateInstallationToken, h]
  · intro h
    unfold generateInstallationToken
    simp only [h, Bool.true_eq_false, if_false]
    cases hlook : o.findRepositoryInstallation (stringsCut s).1 (stringsCut s).2.1 with
    | error e => simp
    | ok installationID =>
      cases hcreate : o.createInstallationToken installationID with
      | error e2 => simp [hcreate]
      | ok tok2 => simp [hcreate]

/-- C3 amended witness: a concrete slash-free identifier fails with the
malformed-repository-name error and an empty effect trace, by
`repo_format_check_fails_iff_no_slash`. -/
theorem repo_format_check_fails_iff_no_slash_witness :
    generateInstallationToken failingOracles "acmewidgets" "tok" =
      (Except.error (InstallationTokenError.malformedRepositoryName "acmewidgets"), []) :=
  (repo_format_check_fails_iff_no_slash failingOracles "acmewidgets" "tok").1 rfl

/-- C4: token creation is attempted only after the installation lookup
succeeded.  First conjunct: when the lookup fails, the exchange surfaces
the lookup error and no token-creation call appears in the effect trace.
Second conjunct: any token-creation call in the trace is for the
installation id the lookup successfully returned, and it comes strictly
after the lookup call. -/
theorem lookup_precedes_token_creation (o : Oracles) (s appToken : String) :
    (∀ e, (stringsCut s).2.2 = true →
      o.findRepositoryInstallation (stringsCut s).1 (stringsCut s).2.1 =
        Except.error e →
      (generateInstallationToken o s appToken).1 =
        Except.error (InstallationTokenError.findRepositoryInstallationErr e) ∧
      ∀ i, Effect.createInstallationToken i ∉
        (generateInstallationToken o s appToken).2) ∧
    (∀ i, Effect.createInstallationToken i ∈
        (generateInstallationToken o s appToken).2 →
      o.findRepositoryInstallation (stringsCut s).1 (stringsCut s).2.1 =
        Except.ok i ∧
      (generateInstallationToken o s appToken).2 =
        [Effect.findRepositoryInstallation (stringsCut s).1 (stringsCut s).2.1,
         Effect.createInstallationToken i]) := by
  constructor
  · intro e hfound hlook
    unfold generateInstallationToken
    simp [hfound, hlook]
  · intro i hmem
    by_cases hfound : (stringsCut s).2.2 = false
    · exfalso
      unfold generateInstallationToken at hmem
      simp [hfound] at hmem
    · rw [Bool.not_eq_false] at hfound
      cases hlook : o.findRepositoryInstallation (stringsCut s).1 (stringsCut s).2.1 with
      | error e =>
        exfalso
        unfold generateInstallationToken at hmem
        simp [hfound, hlook] at hmem
      | ok installationID =>
        have hi : i = installationID := by
          cases hcreate : o.createInstallationToken installationID with
          | error e2 =>
            unfold generateInstallationToken at hmem
            simp [hfound, hlook, hcreate] at hmem
            exact hmem
          | ok tok2 =>
            unfold generateInstallationToken at hmem
            simp [hfound, hlook, hcreate] at hmem
            exact hmem
        subst hi
        refine ⟨by simp [hlook], ?_⟩
        unfold generateInstallationToken
        cases hcreate : o.createInstallationToken i with
        | error e2 => simp [hfound, hlook, hcreate]
        | ok tok2 => simp [hfound, hlook, hcreate]

/-- C4 witness: with a failing lookup on "acme/widgets", the exchange
surfaces the lookup error and no token-creation call is made, by
`lookup_precedes_token_creation`. -/
theorem lookup_precedes_token_creation_witness :
    (generateInstallationToken failingOracles "acme/widgets" "tok").1 =
      Except.error
        (InstallationTokenError.findRepositoryInstallationErr "404 Not Found") ∧
    Effect.createInstallationToken 999 ∉
      (generateInstallationToken failingOracles "acme/widgets" "tok").2 :=
  ⟨((lookup_precedes_token_creation failingOracles "acme/widgets" "tok").1
      "404 Not Found" rfl rfl).1,
   ((lookup_precedes_token_creation failingOracles "acme/widgets" "tok").1
      "404 Not Found" rfl rfl).2 999⟩

/-- C5 counterexample: the help invocation (`-h`, `fset.Parse` returning
`flag.ErrHelp`) writes nothing to standard output yet `Run` reports no
error on the error stream either — refuting the claim's disjunction
"exactly one line, or nothing plus an error report" as stated over every
invocation. -/
theorem single_line_or_error_counterexample :
    ¬ ((∃ line, (Run okOracles ParseResult.help).outWrites = [line]) ∨
       ((Run okOracles ParseResult.help).outWrites = [] ∧
        (Run okOracles ParseResult.help).errWrites ≠ [])) := by
  intro h
  rcases h with ⟨line, hline⟩ | ⟨h1, h2⟩
  · have he : (Run okOracles ParseResult.help).outWrites = [] := rfl
    rw [he] at hline
    exact List.noConfusion hline
  · exact h2 rfl

/-- C5 amended: for every invocation, either exactly one line is written
to standard output, or nothing is written to standard output and either
an error is reported on the error stream or the invocation was a help
request (which succeeds silently after the flag parser prints usage).
Standard output is never written more than once. -/
theorem single_line_or_error_or_help (o : Oracles) (p : ParseResult) :
    (∃ line, (Run o p).outWrites = [line]) ∨
    ((Run o p).outWrites = [] ∧
      ((Run o p).errWrites ≠ [] ∨ p = ParseResult.help)) := by
  cases p with
  | error msg =>
    right
    refine ⟨rfl, Or.inl ?_⟩
    simp [Run, run]
  | help => exact Or.inr ⟨rfl, Or.inr rfl⟩
  | ok flags =>
    by_cases hpk : flags.privateKeyPath = ""
    · right
      refine ⟨?_, Or.inl ?_⟩ <;> simp [Run, run, hpk]
    · by_cases hid : flags.appID = 0
      · right
        refine ⟨?_, Or.inl ?_⟩ <;> simp [Run, run, hpk, hid]
      · rcases hgen : generateAppToken o flags.privateKeyPath flags.appID
          flags.tokenLiveness with ⟨res, effs⟩
        cases res with
        | error e =>
          right
          refine ⟨?_, Or.inl ?_⟩ <;> simp [Run, run, hpk, hid, hgen]
        | ok tok =>
          by_cases hrepo : flags.installedRepository = ""
          · left
            exact ⟨tok.compact,
              by simp [Run, run, hpk, hid, hgen, shouldGenerateInstallationToken, hrepo]⟩
          · rcases hexch : generateInstallationToken o flags.installedRepository
              tok.compact with ⟨res2, effs2⟩
            cases res2 with
            | error e =>
              right
              refine ⟨?_, Or.inl ?_⟩ <;>
                simp [Run, run, hpk, hid, hgen, hexch,
                  shouldGenerateInstallationToken, hrepo]
            | ok installationToken =>
              left
              exact ⟨installationToken,
                by simp [Run, run, hpk, hid, hgen, hexch,
                  shouldGenerateInstallationToken, hrepo]⟩

/-- C6: with parsed flags whose `-private-key` is empty or whose `-id` is
0, the run fails with the corresponding input-validation error and its
effect trace is empty: no file read and no network call happens. -/
theorem missing_flags_fail_before_effects (o : Oracles) (flags : Flags)
    (h : flags.privateKeyPath = "" ∨ flags.appID = 0) :
    (∃ e, (run o (ParseResult.ok flags)).result = Except.error e ∧
      (e = RunError.privateKeyRequired ∨ e = RunError.appIDRequired)) ∧
    (run o (ParseResult.ok flags)).effects = [] := by
  by_cases hpk : flags.privateKeyPath = ""
  · refine ⟨⟨RunError.privateKeyRequired, ?_, Or.inl rfl⟩, ?_⟩ <;>
      simp [run, hpk]
  · rcases h with h | h
    · exact absurd h hpk
    · refine ⟨⟨RunError.appIDRequired, ?_, Or.inr rfl⟩, ?_⟩ <;>
        simp [run, hpk, h]

/-- C6 witness: the all-default flag record (empty key path, app id 0)
fails by `missing_flags_fail_before_effects` with an empty effect trace. -/
theorem missing_flags_fail_before_effects_witness :
    (∃ e, (run okOracles (ParseResult.ok {})).result = Except.error e ∧
      (e = RunError.privateKeyRequired ∨ e = RunError.appIDRequired)) ∧
    (run okOracles (ParseResult.ok {})).effects = [] :=
  missing_flags_fail_before_effects okOracles {} (Or.inl rfl)

/-- C7: in every successful run, if no repository was supplied the output
line is the serialized app token produced by `generateAppToken`, and if a
repository was supplied the output line is the installation token returned
by `generateInstallationToken`. -/
theorem output_mode_selection (o : Oracles) (flags : Flags)
    (hsucc : (run o (ParseResult.ok flags)).result = Except.ok ()) :
    (flags.installedRepository = "" →
      ∃ tok effs,
        generateAppToken o flags.privateKeyPath flags.appID flags.tokenLiveness =
          (Except.ok tok, effs) ∧
        (run o (ParseResult.ok flags)).outWrites = [tok.compact]) ∧
    (flags.installedRepository ≠ "" →
      ∃ tok effs installationToken effs2,
        generateAppToken o flags.privateKeyPath flags.appID flags.tokenLiveness =
          (Except.ok tok, effs) ∧
        generateInstallationToken o flags.installedRepository tok.compact =
          (Except.ok installationToken, effs2) ∧
        (run o (ParseResult.ok flags)).outWrites = [installationToken]) := by
  by_cases hpk : flags.privateKeyPath = ""
  · exfalso
    simp [run, hpk] at hsucc
  by_cases hid : flags.appID = 0
  · exfalso
    simp [run, hpk, hid] at hsucc
  rcases hgen : generateAppToken o flags.privateKeyPath flags.appID
    flags.tokenLiveness with ⟨res, effs⟩
  cases res with
  | error e =>
    exfalso
    simp [run, hpk, hid, hgen] at hsucc
  | ok tok =>
    by_cases hrepo : flags.installedRepository = ""
    · refine ⟨fun _ => ⟨tok, effs, rfl, ?_⟩, fun hr => absurd hrepo hr⟩
      simp [run, hpk, hid, hgen, shouldGenerateInstallationToken, hrepo]
    · refine ⟨fun hr => absurd hr hrepo, fun _ => ?_⟩
      rcases hexch : generateInstallationToken o flags.installedRepository
        tok.compact with ⟨res2, effs2⟩
      cases res2 with
      | error e =>
        exfalso
        simp [run, hpk, hid, hgen, hexch,
          shouldGenerateInstallationToken, hrepo] at hsucc
      | ok installationToken =>
        refine ⟨tok, effs, installationToken, effs2, rfl, hexch, ?_⟩
        simp [run, hpk, hid, hgen, hexch,
          shouldGenerateInstallationToken, hrepo]

/-- C7 witness: a concrete successful installation-token run through
`output_mode_selection` outputs exactly the token the remote service
returned. -/
theorem output_mode_selection_witness :
    (run okOracles (ParseResult.ok flagsWithRepo)).result = Except.ok () ∧
    ∃ tok effs installationToken effs2,
      generateAppToken okOracles flagsWithRepo.privateKeyPath
        flagsWithRepo.appID flagsWithRepo.tokenLiveness =
        (Except.ok tok, effs) ∧
      generateInstallationToken okOracles flagsWithRepo.installedRepository
        tok.compact = (Except.ok installationToken, effs2) ∧
      (run okOracles (ParseResult.ok flagsWithRepo)).outWrites =
        [installationToken] :=
  ⟨rfl, (output_mode_selection okOracles flagsWithRepo rfl).2 (by decide)⟩

/-- The small-step machine agrees with `run`: after five steps from the
initial state it is terminal, denoting the same result, with the same
output writes and the same effect trace.  This ties the state-transition
view used for the frame property back to the direct embedding. -/
theorem machineRefinesRun (o : Oracles) (p : ParseResult) :
    (machineFinal o p).phase.result = some (run o p).result ∧
    (machineFinal o p).outWrites = (run o p).outWrites ∧
    (machineFinal o p).effects = (run o p).effects := by
  cases p with
  | error msg => exact ⟨rfl, rfl, rfl⟩
  | help => exact ⟨rfl, rfl, rfl⟩
  | ok flags =>
    by_cases hpk : flags.privateKeyPath = ""
    · simp [machineFinal, run, step, MachineState.init, hpk, Phase.result]
    · by_cases hid : flags.appID = 0
      · simp [machineFinal, run, step, MachineState.init, hpk, hid, Phase.result]
      · rcases hgen : generateAppToken o flags.privateKeyPath flags.appID
          flags.tokenLiveness with ⟨res, effs⟩
        cases res with
        | error e =>
          simp [machineFinal, run, step, MachineState.init, hpk, hid, hgen,
            Phase.result]
        | ok tok =>
          by_cases hrepo : flags.installedRepository = ""
          · simp [machineFinal, run, step, MachineState.init, hpk, hid, hgen,
              shouldGenerateInstallationToken, hrepo, Phase.result]
          · rcases hexch : generateInstallationToken o flags.installedRepository
              tok.compact with ⟨res2, effs2⟩
            cases res2 with
            | error e =>
              simp [machineFinal, run, step, MachineState.init, hpk, hid, hgen,
                hexch, shouldGenerateInstallationToken, hrepo, Phase.result]
            | ok installationToken =>
              simp [machineFinal, run, step, MachineState.init, hpk, hid, hgen,
                hexch, shouldGenerateInstallationToken, hrepo, Phase.result]

/-- C9: the four generator fields (app id, private key path, token
liveness, installed repository) are written only by the input-parsing
step; every step taken in any other phase leaves all four unchanged, so
after the flags populate them they are only read. -/
theorem flags_immutable_after_parse (o : Oracles) (p : ParseResult)
    (s : MachineState) (h : s.phase ≠ Phase.parsingInput) :
    (step o p s).appID = s.appID ∧
    (step o p s).privateKeyPath = s.privateKeyPath ∧
    (step o p s).tokenLiveness = s.tokenLiveness ∧
    (step o p s).installedRepository = s.installedRepository := by
  unfold step
  cases hp : s.phase with
  | parsingInput => exact absurd hp h
  | validating =>
    by_cases h1 : s.privateKeyPath = "" <;>
      by_cases h2 : s.appID = 0 <;>
        simp [h1, h2]
  | signingAppToken =>
    rcases hgen : generateAppToken o s.privateKeyPath s.appID
      s.tokenLiveness with ⟨res, effs⟩
    cases res with
    | error e => simp [hgen]
    | ok tok =>
      by_cases hrepo : shouldGenerateInstallationToken s.installedRepository = true <;>
        simp [hgen, hrepo]
  | exchangingInstallationToken tok =>
    rcases hexch : generateInstallationToken o s.installedRepository
      tok.compact with ⟨res2, effs2⟩
    cases res2 with
    | error e => simp [hexch]
    | ok installationToken => simp [hexch]
  | emitting output => exact ⟨rfl, rfl, rfl, rfl⟩
  | terminalOk => exact ⟨rfl, rfl, rfl, rfl⟩
  | terminalErr e => exact ⟨rfl, rfl, rfl, rfl⟩

/-- C9 witness: one concrete non-parsing step through
`flags_immutable_after_parse` preserves all four populated fields. -/
theorem flags_immutable_after_parse_witness :
    (step okOracles (ParseResult.ok flagsWithRepo) sampleValidatingState).appID =
      sampleValidatingState.appID ∧
    (step okOracles (ParseResult.ok flagsWithRepo) sampleValidatingState).privateKeyPath =
      sampleValidatingState.privateKeyPath ∧
    (step okOracles (ParseResult.ok flagsWithRepo) sampleValidatingState).tokenLiveness =
      sampleValidatingState.tokenLiveness ∧
    (step okOracles (ParseResult.ok flagsWithRepo) sampleValidatingState).installedRepository =
      sampleValidatingState.installedRepository :=
  flags_immutable_after_parse okOracles (ParseResult.ok flagsWithRepo)
    sampleValidatingState (by decide)

/-- C10: the repository-name format check lives in
`generateInstallationToken`, which `run` reaches only after
`generateAppToken` succeeded; so when the key machinery fails (unreadable
or unparseable key, or signing failure), a run whose repository name is
also malformed fails with the wrapped key error and never with the
malformed-repository-name error. -/
theorem key_error_precedes_repo_format_check (o : Oracles) (flags : Flags)
    (ae : AppTokenError)
    (hpk : flags.privateKeyPath ≠ "") (hid : flags.appID ≠ 0)
    (hrepoSet : flags.installedRepository ≠ "")
    (hmalformed : (stringsCut flags.installedRepository).2.2 = false)
    (hfail : (generateAppToken o flags.privateKeyPath flags.appID
      flags.tokenLiveness).1 = Except.error ae) :
    (run o (ParseResult.ok flags)).result =
      Except.error (RunError.generateAuthTokenErr ae) ∧
    (run o (ParseResult.ok flags)).result ≠
      Except.error (RunError.generateInstallationTokenErr
        (InstallationTokenError.malformedRepositoryName
          flags.installedRepository)) := by
  rcases hgen : generateAppToken o flags.privateKeyPath flags.appID
    flags.tokenLiveness with ⟨res, effs⟩
  rw [hgen] at hfail
  simp only at hfail
  subst hfail
  constructor
  · simp [run, hpk, hid, hgen]
  · simp [run, hpk, hid, hgen]

/-- C10 witness: a run with an unreadable key file and a slash-free
repository name fails, by `key_error_precedes_repo_format_check`, with
the wrapped file-read error rather than the malformed-name error. -/
theorem key_error_precedes_repo_format_check_witness :
    (run failingOracles (ParseResult.ok flagsRepoNoSlash)).result =
      Except.error (RunError.generateAuthTokenErr
        (AppTokenError.readFileErr "key.pem"
          "open key.pem: no such file or directory")) ∧
    (run failingOracles (ParseResult.ok flagsRepoNoSlash)).result ≠
      Except.error (RunError.generateInstallationTokenErr
        (InstallationTokenError.malformedRepositoryName
          flagsRepoNoSlash.installedRepository)) :=
  key_error_precedes_repo_format_check failingOracles flagsRepoNoSlash
    (AppTokenError.readFileErr "key.pem" "open key.pem: no such file or directory")
    (by decide) (by decide) (by decide) (by decide) rfl

end GenerateToken
